import Mathlib

/-!
Verification of the gbm_gralloc buffer allocator (src/gralloc.cpp) against its
natural-language specification. The facade in src/gralloc.cpp is embedded
directly; the buffer-object / handle-registry layer (gralloc_gbm.cpp) and the
project header gralloc_drm.h are not part of src/, so the operations the facade
delegates to are modelled from the spec, each flagged by a doc comment starting
with `Modelled from the spec:`.
-/

namespace GbmGralloc

/-- POSIX error number EINVAL; the facade returns `-EINVAL` on its error paths. -/
def EINVAL : Int := 22

/-! Pixel format constants, values from the external fixed API system/graphics.h. -/

def HAL_PIXEL_FORMAT_RGBA_8888 : Int := 1
def HAL_PIXEL_FORMAT_RGBX_8888 : Int := 2
def HAL_PIXEL_FORMAT_RGB_888 : Int := 3
def HAL_PIXEL_FORMAT_RGB_565 : Int := 4
def HAL_PIXEL_FORMAT_BGRA_8888 : Int := 5
def HAL_PIXEL_FORMAT_YCbCr_422_SP : Int := 16
def HAL_PIXEL_FORMAT_YCrCb_420_SP : Int := 17
def HAL_PIXEL_FORMAT_YCbCr_422_I : Int := 20
def HAL_PIXEL_FORMAT_YV12 : Int := 842094169

/-- Embeds `gralloc_gbm_get_bpp` (src/gralloc.cpp lines 48-77): bytes per pixel
of a pixel format; 0 for any format not in the switch. -/
def gralloc_gbm_get_bpp (format : Int) : Int :=
  if format = HAL_PIXEL_FORMAT_RGBA_8888 ∨ format = HAL_PIXEL_FORMAT_RGBX_8888 ∨
     format = HAL_PIXEL_FORMAT_BGRA_8888 then 4
  else if format = HAL_PIXEL_FORMAT_RGB_888 then 3
  else if format = HAL_PIXEL_FORMAT_RGB_565 ∨ format = HAL_PIXEL_FORMAT_YCbCr_422_I then 2
  else if format = HAL_PIXEL_FORMAT_YV12 ∨ format = HAL_PIXEL_FORMAT_YCbCr_422_SP ∨
          format = HAL_PIXEL_FORMAT_YCrCb_420_SP then 1
  else 0

/-- Embeds `struct gralloc_gbm_bo_t` as far as the facade observes it: the lock
count (lock/unlock state) and the registry reference count. -/
structure GrallocGbmBo where
  lockCount : Nat
  refcount : Nat
  deriving Repr, DecidableEq

/-- The per-process handle registry: association list from handle identity to
the live buffer object, as described by the spec's Handle Registry component. -/
abbrev Registry := List (Nat × GrallocGbmBo)

/-- Registry lookup by handle identity. -/
def regLookup : Registry → Nat → Option GrallocGbmBo
  | [], _ => none
  | (k, bo) :: rest, h => if k = h then some bo else regLookup rest h

/-- Replace the buffer object stored under a handle identity (no-op when absent). -/
def regUpdate : Registry → Nat → GrallocGbmBo → Registry
  | [], _, _ => []
  | (k, bo) :: rest, h, bo' =>
      if k = h then (k, bo') :: rest else (k, bo) :: regUpdate rest h bo'

/-- Remove the entry stored under a handle identity (no-op when absent). -/
def regRemove : Registry → Nat → Registry
  | [], _ => []
  | (k, bo) :: rest, h => if k = h then rest else (k, bo) :: regRemove rest h

/-- Registry invariant from the spec: every entry's reference count is ≥ 1. -/
def RegInv (reg : Registry) : Prop := ∀ p ∈ reg, 1 ≤ p.2.refcount

/-- Modelled from the spec: `gralloc_gbm_handle_register` (gralloc_gbm.cpp, not
under src/). If the handle is already present the reference count is
incremented; otherwise the backend import (outcome given by `importOk`) either
fails with RegistrationError (-EINVAL) leaving the registry unchanged, or
inserts a fresh buffer object with reference count 1. -/
def gralloc_gbm_handle_register (reg : Registry) (h : Nat) (importOk : Bool) :
    Int × Registry :=
  match regLookup reg h with
  | some bo => (0, regUpdate reg h { bo with refcount := bo.refcount + 1 })
  | none =>
      if importOk then (0, (h, { lockCount := 0, refcount := 1 }) :: reg)
      else (-EINVAL, reg)

/-- Modelled from the spec: `gralloc_gbm_handle_unregister` (gralloc_gbm.cpp,
not under src/). Unknown handles fail with UnknownHandleError (-EINVAL) and
leave the registry unchanged; otherwise the reference count is decremented and
the buffer object is destroyed and removed when it reaches zero. -/
def gralloc_gbm_handle_unregister (reg : Registry) (h : Nat) : Int × Registry :=
  match regLookup reg h with
  | none => (-EINVAL, reg)
  | some bo =>
      if bo.refcount ≤ 1 then (0, regRemove reg h)
      else (0, regUpdate reg h { bo with refcount := bo.refcount - 1 })

/-- Modelled from the spec: `gralloc_gbm_bo_from_handle` (gralloc_gbm.cpp, not
under src/) resolves a handle to the buffer object registered in this process;
`none` when the handle is not registered. -/
def gralloc_gbm_bo_from_handle (reg : Registry) (h : Nat) : Option GrallocGbmBo :=
  regLookup reg h

/-- Modelled from the spec: `gralloc_gbm_bo_lock` (gralloc_gbm.cpp, not under
src/) obtains a CPU-visible mapping and returns its pointer (modelled as an
abstract address); the lock count is incremented. -/
def gralloc_gbm_bo_lock (bo : GrallocGbmBo) (usage x y w hh : Int) :
    Int × Nat × GrallocGbmBo :=
  (0, 0, { bo with lockCount := bo.lockCount + 1 })

/-- Modelled from the spec: `gralloc_gbm_bo_unlock` (gralloc_gbm.cpp, not under
src/) releases the mapping; unlocking a buffer object that is not locked is a
no-op NotLockedError condition (first component `true`) that leaves the object
unchanged. The facade at src/gralloc.cpp line 199 discards this outcome. -/
def gralloc_gbm_bo_unlock (bo : GrallocGbmBo) : Bool × GrallocGbmBo :=
  if bo.lockCount = 0 then (true, bo)
  else (false, { bo with lockCount := bo.lockCount - 1 })

/-- Embeds `struct gbm_module_t` state (src/gralloc.cpp lines 41-46): the lazily
created device (modelled by its file descriptor) and the per-process registry.
The mutex serialises every facade operation, so each operation is one atomic
state transition. -/
structure GbmModuleState where
  gbm : Option Nat
  registry : Registry
  deriving Repr, DecidableEq

/-- Embeds `gbm_init` (src/gralloc.cpp lines 82-95): under the mutex, if the
device is absent it is created; `createResult` is the outcome `gbm_dev_create`
would produce (the backend is external). On backend failure the error is
-EINVAL and the device pointer stays null. -/
def gbm_init (st : GbmModuleState) (createResult : Option Nat) :
    Int × GbmModuleState :=
  match st.gbm with
  | some _ => (0, st)
  | none =>
      match createResult with
      | some d => (0, { st with gbm := some d })
      | none => (-EINVAL, st)

/-- Embeds `gbm_device_get_fd` on the modelled device (the device is represented
by its descriptor). -/
def gbm_device_get_fd (d : Nat) : Nat := d

/-- Modelled from the spec: the perform opcodes live in gralloc_drm.h, which is
not under src/; only their distinctness is load-bearing for the dispatch. -/
def GRALLOC_MODULE_PERFORM_GET_DRM_FD : Nat := 2147483650

/-- Modelled from the spec: second perform opcode from gralloc_drm.h (not under
src/), the usage-capability query, currently a stub. -/
def GRALLOC_MODULE_PERFORM_GET_USAGE : Nat := 2147483651

/-- Embeds the C cast `static_cast<uint32_t>(op)` used at src/gralloc.cpp
line 102: value of the int reduced modulo 2^32. -/
def toUInt32nat (x : Int) : Nat := (x % 4294967296).toNat

/-- Embeds `gbm_mod_perform` (src/gralloc.cpp lines 97-130): after device
initialization the opcode (as uint32) is dispatched; GET_DRM_FD writes the
device descriptor through the out-pointer (second component) and succeeds,
GET_USAGE is a stub returning success with no data, every other code fails with
-EINVAL. -/
def gbm_mod_perform (st : GbmModuleState) (createResult : Option Nat) (op : Int) :
    Int × Option Nat × GbmModuleState :=
  let r := gbm_init st createResult
  if r.1 ≠ 0 then (r.1, none, r.2)
  else
    let uop := toUInt32nat op
    if uop = GRALLOC_MODULE_PERFORM_GET_DRM_FD then
      match r.2.gbm with
      | some d => (0, some (gbm_device_get_fd d), r.2)
      | none => (0, none, r.2)
    else if uop = GRALLOC_MODULE_PERFORM_GET_USAGE then (0, none, r.2)
    else (-EINVAL, none, r.2)

/-- Embeds `gbm_mod_register_buffer` (src/gralloc.cpp lines 132-147): device
initialization first (its failure is returned unchanged), then delegation to the
registry under the mutex. `importOk` is the backend import outcome. -/
def gbm_mod_register_buffer (st : GbmModuleState) (createResult : Option Nat)
    (h : Nat) (importOk : Bool) : Int × GbmModuleState :=
  let r := gbm_init st createResult
  if r.1 ≠ 0 then r
  else
    let r2 := gralloc_gbm_handle_register r.2.registry h importOk
    (r2.1, { r.2 with registry := r2.2 })

/-- Embeds `gbm_mod_unregister_buffer` (src/gralloc.cpp lines 149-160):
delegation to the registry under the mutex (no device initialization). -/
def gbm_mod_unregister_buffer (st : GbmModuleState) (h : Nat) :
    Int × GbmModuleState :=
  let r := gralloc_gbm_handle_unregister st.registry h
  (r.1, { st with registry := r.2 })

/-- Embeds `gbm_mod_lock` (src/gralloc.cpp lines 162-183): resolve the handle;
if it is not registered, fail with -EINVAL writing no pointer; otherwise
delegate to the buffer-object lock (the mapping pointer is the middle
component). -/
def gbm_mod_lock (st : GbmModuleState) (h : Nat) (usage x y w hh : Int) :
    Int × Option Nat × GbmModuleState :=
  match gralloc_gbm_bo_from_handle st.registry h with
  | none => (-EINVAL, none, st)
  | some bo =>
      let r := gralloc_gbm_bo_lock bo usage x y w hh
      (r.1, some r.2.1, { st with registry := regUpdate st.registry h r.2.2 })

/-- Embeds `gbm_mod_unlock` (src/gralloc.cpp lines 185-204): resolve the handle;
if it is not registered fail with -EINVAL; otherwise call the buffer-object
unlock and return `err`, which was initialised to 0 and is never assigned on
this path — the unlock outcome is discarded (line 199). -/
def gbm_mod_unlock (st : GbmModuleState) (h : Nat) : Int × GbmModuleState :=
  match gralloc_gbm_bo_from_handle st.registry h with
  | none => (-EINVAL, st)
  | some bo =>
      let bo' := (gralloc_gbm_bo_unlock bo).2
      (0, { st with registry := regUpdate st.registry h bo' })

/-- Embeds `gbm_mod_free_gpu0` (src/gralloc.cpp lines 217-238): resolve the
handle; if it is not registered fail with -EINVAL performing no teardown
(middle component `false`); otherwise `gbm_free`, `native_handle_close` and
`delete handle` run (middle component `true`) and the buffer object is gone. -/
def gbm_mod_free_gpu0 (st : GbmModuleState) (h : Nat) :
    Int × Bool × GbmModuleState :=
  match gralloc_gbm_bo_from_handle st.registry h with
  | none => (-EINVAL, false, st)
  | some _ => (0, true, { st with registry := regRemove st.registry h })

/-- Result of a successful backend buffer creation as the facade observes it:
the exported native handle and the backend byte stride `gbm_bo_get_stride`. -/
structure CreatedBo where
  handle : Nat
  byteStride : Nat
  deriving Repr, DecidableEq

/-- Modelled from the spec: `gralloc_gbm_bo_create` (gralloc_gbm.cpp, not under
src/) validates the format — an unsupported format yields zero bytes-per-pixel
and MUST fail the operation — then requests the backend allocation, whose
outcome (native handle, byte stride) is the `backend` parameter; on backend
failure nothing is constructed. -/
def gralloc_gbm_bo_create (w h format usage : Int) (backend : Option (Nat × Nat)) :
    Option CreatedBo :=
  if gralloc_gbm_get_bpp format = 0 then none
  else
    match backend with
    | none => none
    | some (hnd, bs) => some { handle := hnd, byteStride := bs }

/-- Embeds `gbm_mod_alloc_gpu0` (src/gralloc.cpp lines 240-265): on creation
failure return `-errno` writing neither out-pointer; on success write the
handle and the stride in pixels, `gbm_bo_get_stride / gralloc_gbm_get_bpp`
(unsigned C division). -/
def gbm_mod_alloc_gpu0 (w h format usage : Int) (backend : Option (Nat × Nat))
    (errno : Nat) : Int × Option Nat × Option Nat :=
  match gralloc_gbm_bo_create w h format usage backend with
  | none => (-(errno : Int), none, none)
  | some bo =>
      (0, some bo.handle, some (bo.byteStride / (gralloc_gbm_get_bpp format).toNat))

/-- Value of the external fixed API constant HARDWARE_DEVICE_TAG
('H','W','D','T'). -/
def HARDWARE_DEVICE_TAG : Nat := 1213776980

/-- Recognized device name, external fixed API constant GRALLOC_HARDWARE_GPU0
from hardware/gralloc.h. -/
def GRALLOC_HARDWARE_GPU0 : String := "gpu0"

/-- Embeds `struct alloc_device_t` as configured by the facade: the common tag
and version plus the two bound operations. -/
structure AllocDeviceT where
  tag : Nat
  version : Nat
  alloc : Int → Int → Int → Int → Option (Nat × Nat) → Nat → Int × Option Nat × Option Nat
  free : GbmModuleState → Nat → Int × Bool × GbmModuleState

/-- Embeds `gbm_mod_open_gpu0` (src/gralloc.cpp lines 267-291): device
initialization first (its failure is returned, no endpoint produced); then the
allocation endpoint is constructed with `alloc`/`free` bound to the gpu0
operations. -/
def gbm_mod_open_gpu0 (st : GbmModuleState) (createResult : Option Nat) :
    Int × Option AllocDeviceT × GbmModuleState :=
  let r := gbm_init st createResult
  if r.1 ≠ 0 then (r.1, none, r.2)
  else
    (0, some { tag := HARDWARE_DEVICE_TAG, version := 0,
               alloc := gbm_mod_alloc_gpu0, free := gbm_mod_free_gpu0 }, r.2)

/-- Embeds `gbm_mod_open` (src/gralloc.cpp lines 293-305): only the gpu0 name is
recognized; every other name fails with -EINVAL producing no device. -/
def gbm_mod_open (st : GbmModuleState) (createResult : Option Nat) (name : String) :
    Int × Option AllocDeviceT × GbmModuleState :=
  if name = GRALLOC_HARDWARE_GPU0 then gbm_mod_open_gpu0 st createResult
  else (-EINVAL, none, st)

/-- Concrete module state: initialized device (fd 3), empty registry. -/
def stInit : GbmModuleState := { gbm := some 3, registry := [] }

/-- Concrete module state: initialized device (fd 3), one registered buffer
under handle 5, never locked, reference count 1. -/
def stOne : GbmModuleState :=
  { gbm := some 3, registry := [(5, { lockCount := 0, refcount := 1 })] }

/-- Helper: any entry of an updated registry is either the new object or an
entry of the original registry. -/
theorem mem_regUpdate {h : Nat} {bo' : GrallocGbmBo} :
    ∀ {reg : Registry} {p : Nat × GrallocGbmBo},
      p ∈ regUpdate reg h bo' → p.2 = bo' ∨ p ∈ reg := by
  intro reg
  induction reg with
  | nil => intro p hp; simp [regUpdate] at hp
  | cons q rest ih =>
    intro p hp
    obtain ⟨k, bo⟩ := q
    by_cases hk : k = h
    · simp [regUpdate, hk] at hp
      rcases hp with h1 | h1
      · left; simp [h1]
      · right; exact List.mem_cons_of_mem _ h1
    · simp [regUpdate, hk] at hp
      rcases hp with h1 | h1
      · right; simp [h1]
      · rcases ih h1 with h2 | h2
        · left; exact h2
        · right; exact List.mem_cons_of_mem _ h2

/-- Helper: any entry surviving a registry removal was an entry before. -/
theorem mem_regRemove {h : Nat} :
    ∀ {reg : Registry} {p : Nat × GrallocGbmBo}, p ∈ regRemove reg h → p ∈ reg := by
  intro reg
  induction reg with
  | nil => intro p hp; simp [regRemove] at hp
  | cons q rest ih =>
    intro p hp
    obtain ⟨k, bo⟩ := q
    by_cases hk : k = h
    · simp [regRemove, hk] at hp
      exact List.mem_cons_of_mem _ hp
    · simp [regRemove, hk] at hp
      rcases hp with h1 | h1
      · simp [h1]
      · exact List.mem_cons_of_mem _ (ih h1)

/-- Helper: writing back the object a lookup returned leaves the registry
unchanged. -/
theorem regUpdate_self {h : Nat} {bo : GrallocGbmBo} :
    ∀ {reg : Registry}, regLookup reg h = some bo → regUpdate reg h bo = reg := by
  intro reg
  induction reg with
  | nil => intro _; rfl
  | cons q rest ih =>
    intro hl
    obtain ⟨k, b⟩ := q
    by_cases hk : k = h
    · simp [regLookup, hk] at hl
      simp [regUpdate, hk, hl]
    · simp [regLookup, hk] at hl
      simp [regUpdate, hk, ih hl]

/-- Helper: registration preserves the reference-count invariant. -/
theorem register_inv (reg : Registry) (h : Nat) (imp : Bool) (hinv : RegInv reg) :
    RegInv (gralloc_gbm_handle_register reg h imp).2 := by
  cases hl : regLookup reg h with
  | none =>
    cases imp with
    | false => simpa [gralloc_gbm_handle_register, hl] using hinv
    | true =>
      intro p hp
      simp [gralloc_gbm_handle_register, hl] at hp
      rcases hp with h1 | h1
      · simp [h1]
      · exact hinv p h1
  | some bo =>
    intro p hp
    simp [gralloc_gbm_handle_register, hl] at hp
    rcases mem_regUpdate hp with h1 | h1
    · rw [h1]; show 1 ≤ bo.refcount + 1; omega
    · exact hinv p h1

/-- Helper: unregistration preserves the reference-count invariant. -/
theorem unregister_inv (reg : Registry) (h : Nat) (hinv : RegInv reg) :
    RegInv (gralloc_gbm_handle_unregister reg h).2 := by
  cases hl : regLookup reg h with
  | none => simpa [gralloc_gbm_handle_unregister, hl] using hinv
  | some bo =>
    by_cases hrc : bo.refcount ≤ 1
    · intro p hp
      simp [gralloc_gbm_handle_unregister, hl, hrc] at hp
      exact hinv p (mem_regRemove hp)
    · intro p hp
      simp [gralloc_gbm_handle_unregister, hl, hrc] at hp
      rcases mem_regUpdate hp with h1 | h1
      · rw [h1]; show 1 ≤ bo.refcount - 1; omega
      · exact hinv p h1

/-- Claim C1: when the pixel format is unsupported (bytes-per-pixel computes to
0) the allocate operation fails with a negative error code and writes neither
the handle nor the stride (no stride-0 buffer), no buffer object is created;
moreover whenever the stride division executes (a stride is written) its
divisor `gralloc_gbm_get_bpp format` is nonzero, so the division is never a
division by zero. -/
theorem alloc_unsupported_format_fails (w h format usage : Int)
    (backend : Option (Nat × Nat)) (errno : Nat)
    (hbpp : gralloc_gbm_get_bpp format = 0) (herr : 0 < errno) :
    (gbm_mod_alloc_gpu0 w h format usage backend errno).1 < 0 ∧
    (gbm_mod_alloc_gpu0 w h format usage backend errno).2.1 = none ∧
    (gbm_mod_alloc_gpu0 w h format usage backend errno).2.2 = none ∧
    gralloc_gbm_bo_create w h format usage backend = none ∧
    (∀ w2 h2 f2 u2 b2 e2 s, (gbm_mod_alloc_gpu0 w2 h2 f2 u2 b2 e2).2.2 = some s →
      gralloc_gbm_get_bpp f2 ≠ 0) := by
  have hc : gralloc_gbm_bo_create w h format usage backend = none := by
    simp [gralloc_gbm_bo_create, hbpp]
  refine ⟨?_, ?_, ?_, hc, ?_⟩
  · simp only [gbm_mod_alloc_gpu0, hc]; omega
  · simp [gbm_mod_alloc_gpu0, hc]
  · simp [gbm_mod_alloc_gpu0, hc]
  · intro w2 h2 f2 u2 b2 e2 s hs hbpp2
    have hc2 : gralloc_gbm_bo_create w2 h2 f2 u2 b2 = none := by
      simp [gralloc_gbm_bo_create, hbpp2]
    simp [gbm_mod_alloc_gpu0, hc2] at hs

/-- Claim C1 witness at the unsupported format 42 with errno EINVAL. -/
theorem alloc_unsupported_format_fails_witness :
    (gbm_mod_alloc_gpu0 64 64 42 0 (some (7, 256)) 22).1 < 0 ∧
    (gbm_mod_alloc_gpu0 64 64 42 0 (some (7, 256)) 22).2.2 = none := by
  have h := alloc_unsupported_format_fails 64 64 42 0 (some (7, 256)) 22
    (by decide) (by decide)
  exact ⟨h.1, h.2.2.1⟩

/-- Claim C4: a successful allocation returns the backend byte stride divided
by the format's bytes-per-pixel, i.e. the stride in pixels. -/
theorem alloc_stride_in_pixels (w h format usage : Int) (hnd bs errno : Nat)
    (hbpp : gralloc_gbm_get_bpp format ≠ 0) :
    gbm_mod_alloc_gpu0 w h format usage (some (hnd, bs)) errno =
      (0, some hnd, some (bs / (gralloc_gbm_get_bpp format).toNat)) := by
  simp [gbm_mod_alloc_gpu0, gralloc_gbm_bo_create, hbpp]

/-- Claim C4 witness: allocating 64x64 RGBA_8888 with a linear 256-byte backend
row returns stride 64 pixels. -/
theorem alloc_stride_in_pixels_witness :
    gbm_mod_alloc_gpu0 64 64 HAL_PIXEL_FORMAT_RGBA_8888 0 (some (7, 256)) 22 =
      (0, some 7, some 64) := by
  rw [alloc_stride_in_pixels 64 64 HAL_PIXEL_FORMAT_RGBA_8888 0 7 256 22 (by decide)]
  decide

/-- Claim C5: when backend buffer creation fails, allocate returns the
propagated negative error `-errno`, writes neither the handle nor the stride,
and no (partial) buffer object is constructed. -/
theorem alloc_backend_failure_clean (w h format usage : Int) (errno : Nat)
    (hbpp : gralloc_gbm_get_bpp format ≠ 0) (herr : 0 < errno) :
    gbm_mod_alloc_gpu0 w h format usage none errno = (-(errno : Int), none, none) ∧
    -(errno : Int) < 0 ∧
    gralloc_gbm_bo_create w h format usage none = none := by
  refine ⟨?_, by omega, ?_⟩ <;> simp [gbm_mod_alloc_gpu0, gralloc_gbm_bo_create, hbpp]

/-- Claim C5 witness at RGB_565 with backend failure errno 12 (ENOMEM). -/
theorem alloc_backend_failure_clean_witness :
    gbm_mod_alloc_gpu0 64 64 HAL_PIXEL_FORMAT_RGB_565 0 none 12 =
      (-12, none, none) :=
  (alloc_backend_failure_clean 64 64 HAL_PIXEL_FORMAT_RGB_565 0 12
    (by decide) (by decide)).1

/-- Claim C2 counterexample: in `stOne` handle 5 is registered and was never
locked (lock count 0), yet `gbm_mod_unlock` returns 0 — success, not a
NotLockedError (every error of this interface is a negative code). -/
theorem unlock_not_locked_counterexample :
    (gbm_mod_unlock stOne 5).1 = 0 ∧ ¬ (gbm_mod_unlock stOne 5).1 < 0 := by
  decide

/-- Claim C2 (amended): unlocking a registered but not-locked buffer returns 0
(success) — the facade discards the buffer-object layer's not-locked outcome
(src/gralloc.cpp line 199) — and leaves the buffer and registry state
unchanged. -/
theorem unlock_not_locked_returns_success (st : GbmModuleState) (h : Nat)
    (bo : GrallocGbmBo) (hl : gralloc_gbm_bo_from_handle st.registry h = some bo)
    (hlock : bo.lockCount = 0) :
    gbm_mod_unlock st h = (0, st) := by
  have hl2 : regLookup st.registry h = some bo := hl
  simp [gbm_mod_unlock, hl, gralloc_gbm_bo_unlock, hlock, regUpdate_self hl2]

/-- Claim C2 (amended) witness at the concrete state `stOne`. -/
theorem unlock_not_locked_returns_success_witness :
    gbm_mod_unlock stOne 5 = (0, stOne) :=
  unlock_not_locked_returns_success stOne 5 { lockCount := 0, refcount := 1 }
    (by decide) (by decide)

/-- Claim C3: reference counting at the register/unregister interface — with an
initialized device, register; register; unregister leaves the entry present
with reference count 1, the next unregister destroys the buffer object and
removes the entry, a further unregister fails with -EINVAL (UnknownHandleError)
leaving the state unchanged; and both registry operations preserve the
invariant that no registry entry has reference count below 1. -/
theorem register_unregister_refcount (d h : Nat) :
    (gbm_mod_register_buffer { gbm := some d, registry := [] } (some d) h true =
      (0, { gbm := some d,
            registry := [(h, { lockCount := 0, refcount := 1 })] })) ∧
    (gbm_mod_register_buffer
        { gbm := some d, registry := [(h, { lockCount := 0, refcount := 1 })] }
        (some d) h true =
      (0, { gbm := some d,
            registry := [(h, { lockCount := 0, refcount := 2 })] })) ∧
    (gbm_mod_unregister_buffer
        { gbm := some d, registry := [(h, { lockCount := 0, refcount := 2 })] } h =
      (0, { gbm := some d,
            registry := [(h, { lockCount := 0, refcount := 1 })] })) ∧
    (gbm_mod_unregister_buffer
        { gbm := some d, registry := [(h, { lockCount := 0, refcount := 1 })] } h =
      (0, { gbm := some d, registry := [] })) ∧
    (gbm_mod_unregister_buffer { gbm := some d, registry := [] } h =
      (-EINVAL, { gbm := some d, registry := [] })) ∧
    (∀ reg h2 imp, RegInv reg → RegInv (gralloc_gbm_handle_register reg h2 imp).2) ∧
    (∀ reg h2, RegInv reg → RegInv (gralloc_gbm_handle_unregister reg h2).2) := by
  refine ⟨?_, ?_, ?_, ?_, ?_, register_inv, unregister_inv⟩ <;>
    simp [gbm_mod_register_buffer, gbm_mod_unregister_buffer, gbm_init,
      gralloc_gbm_handle_register, gralloc_gbm_handle_unregister,
      regLookup, regUpdate, regRemove]

/-- Claim C3 witness at device fd 3 and handle 5, with the invariant applied to
the singleton registry. -/
theorem register_unregister_refcount_witness :
    gbm_mod_register_buffer { gbm := some 3, registry := [] } (some 3) 5 true =
      (0, { gbm := some 3, registry := [(5, { lockCount := 0, refcount := 1 })] }) ∧
    RegInv (gralloc_gbm_handle_unregister
      [(5, { lockCount := 0, refcount := 1 })] 5).2 := by
  refine ⟨(register_unregister_refcount 3 5).1, ?_⟩
  refine (register_unregister_refcount 3 5).2.2.2.2.2.2
    [(5, { lockCount := 0, refcount := 1 })] 5 ?_
  intro p hp
  simp at hp
  simp [hp]

/-- Claim C6: on a handle not registered in this process, lock and unlock both
fail with -EINVAL, lock writes no mapping pointer, and the state is
unchanged. -/
theorem lock_unlock_unregistered_einval (st : GbmModuleState) (h : Nat)
    (usage x y w hh : Int)
    (hun : gralloc_gbm_bo_from_handle st.registry h = none) :
    gbm_mod_lock st h usage x y w hh = (-EINVAL, none, st) ∧
    gbm_mod_unlock st h = (-EINVAL, st) := by
  constructor <;> simp [gbm_mod_lock, gbm_mod_unlock, hun]

/-- Claim C6 witness: handle 9 is not registered in `stInit`. -/
theorem lock_unlock_unregistered_einval_witness :
    gbm_mod_lock stInit 9 0 0 0 0 0 = (-EINVAL, none, stInit) ∧
    gbm_mod_unlock stInit 9 = (-EINVAL, stInit) :=
  lock_unlock_unregistered_einval stInit 9 0 0 0 0 0 (by decide)

/-- Claim C7: perform dispatches exactly the enumerated opcodes — GET_DRM_FD
stores the device descriptor through the out-pointer and succeeds, GET_USAGE is
a stub success with no data, and every other opcode fails with -EINVAL; the
state is unchanged when the device is already initialized. -/
theorem perform_dispatch (st : GbmModuleState) (d : Nat) (cr : Option Nat)
    (op : Int) (hgbm : st.gbm = some d) :
    (toUInt32nat op = GRALLOC_MODULE_PERFORM_GET_DRM_FD →
      gbm_mod_perform st cr op = (0, some (gbm_device_get_fd d), st)) ∧
    (toUInt32nat op = GRALLOC_MODULE_PERFORM_GET_USAGE →
      gbm_mod_perform st cr op = (0, none, st)) ∧
    (toUInt32nat op ≠ GRALLOC_MODULE_PERFORM_GET_DRM_FD →
      toUInt32nat op ≠ GRALLOC_MODULE_PERFORM_GET_USAGE →
      gbm_mod_perform st cr op = (-EINVAL, none, st)) := by
  have hinit : gbm_init st cr = (0, st) := by simp [gbm_init, hgbm]
  refine ⟨fun h1 => ?_, fun h2 => ?_, fun h1 h2 => ?_⟩
  · simp [gbm_mod_perform, hinit, h1, hgbm]
  · simp [gbm_mod_perform, hinit, h2,
      GRALLOC_MODULE_PERFORM_GET_DRM_FD, GRALLOC_MODULE_PERFORM_GET_USAGE]
  · simp [gbm_mod_perform, hinit, h1, h2]

/-- Claim C7 witness: the GET_DRM_FD opcode returns the device descriptor and
an unrecognized opcode (5) fails with -EINVAL, both on `stInit`. -/
theorem perform_dispatch_witness :
    gbm_mod_perform stInit none 2147483650 = (0, some 3, stInit) ∧
    gbm_mod_perform stInit none 5 = (-EINVAL, none, stInit) :=
  ⟨(perform_dispatch stInit 3 none 2147483650 (by decide)).1 (by decide),
   (perform_dispatch stInit 3 none 5 (by decide)).2.2 (by decide) (by decide)⟩

/-- Claim C8: device initialization is idempotent and single-shot — with the
device present it returns success without change; with the device absent and a
failing backend it returns -EINVAL and the device pointer stays null, so a
later call can retry and succeed; the failure is propagated unchanged by
`gbm_mod_register_buffer`. -/
theorem gbm_init_idempotent_retry (st : GbmModuleState) (d h : Nat)
    (cr : Option Nat) (imp : Bool) (hgbm : st.gbm = some d) :
    gbm_init st cr = (0, st) ∧
    (∀ st2 : GbmModuleState, st2.gbm = none →
      gbm_init st2 none = (-EINVAL, st2) ∧
      (gbm_init st2 none).2.gbm = none ∧
      gbm_init st2 (some d) = (0, { st2 with gbm := some d }) ∧
      gbm_mod_register_buffer st2 none h imp = (-EINVAL, st2)) := by
  refine ⟨by simp [gbm_init, hgbm], fun st2 h2 => ?_⟩
  refine ⟨?_, ?_, ?_, ?_⟩ <;>
    simp [gbm_init, gbm_mod_register_buffer, h2, EINVAL]

/-- Claim C8 witness: idempotence on `stInit` and propagation of the failed
initialization from an empty module state. -/
theorem gbm_init_idempotent_retry_witness :
    gbm_init stInit none = (0, stInit) ∧
    gbm_mod_register_buffer { gbm := none, registry := [] } none 5 true =
      (-EINVAL, { gbm := none, registry := [] }) :=
  ⟨(gbm_init_idempotent_retry stInit 3 5 none true (by decide)).1,
   ((gbm_init_idempotent_retry stInit 3 5 none true (by decide)).2
     { gbm := none, registry := [] } (by decide)).2.2.2⟩

/-- Claim C9: the module open entry succeeds only for the gpu0 device name, in
which case it returns the allocation endpoint with alloc and free bound to the
gpu0 operations after successful device initialization; every other name fails
with -EINVAL returning no device and changing nothing; a gpu0 open whose device
initialization fails propagates the failure and returns no device. -/
theorem open_dispatch (st : GbmModuleState) (d : Nat) (cr : Option Nat)
    (name : String) (hgbm : st.gbm = some d) :
    gbm_mod_open st cr GRALLOC_HARDWARE_GPU0 =
      (0, some { tag := HARDWARE_DEVICE_TAG, version := 0,
                 alloc := gbm_mod_alloc_gpu0, free := gbm_mod_free_gpu0 }, st) ∧
    (name ≠ GRALLOC_HARDWARE_GPU0 →
      gbm_mod_open st cr name = (-EINVAL, none, st)) ∧
    (∀ st2 : GbmModuleState, st2.gbm = none →
      gbm_mod_open st2 none GRALLOC_HARDWARE_GPU0 = (-EINVAL, none, st2)) := by
  refine ⟨?_, fun hn => ?_, fun st2 h2 => ?_⟩
  · simp [gbm_mod_open, gbm_mod_open_gpu0, gbm_init, hgbm]
  · simp [gbm_mod_open, hn]
  · simp [gbm_mod_open, gbm_mod_open_gpu0, gbm_init, h2, EINVAL]

/-- Claim C9 witness: opening the gpu0 name on `stInit` succeeds and the
unrecognized name fb0 fails with -EINVAL. -/
theorem open_dispatch_witness :
    (gbm_mod_open stInit none GRALLOC_HARDWARE_GPU0).1 = 0 ∧
    gbm_mod_open stInit none "fb0" = (-EINVAL, none, stInit) := by
  have h := open_dispatch stInit 3 none "fb0" (by decide)
  exact ⟨by rw [h.1], h.2.1 (by decide)⟩

/-- Claim C10: free on a handle that resolves to no live buffer object in this
process returns -EINVAL, performs no teardown (no backend release, no handle
close or delete), and leaves the state unchanged. -/
theorem free_unregistered_einval (st : GbmModuleState) (h : Nat)
    (hun : gralloc_gbm_bo_from_handle st.registry h = none) :
    gbm_mod_free_gpu0 st h = (-EINVAL, false, st) := by
  simp [gbm_mod_free_gpu0, hun]

/-- Claim C10 witness: handle 9 is not registered in `stInit`. -/
theorem free_unregistered_einval_witness :
    gbm_mod_free_gpu0 stInit 9 = (-EINVAL, false, stInit) :=
  free_unregistered_einval stInit 9 (by decide)

end GbmGralloc
